import Mathlib

/-!
Verification of the Proof-of-Human-Work attestation/verification core.

Shallow embedding of the client code:
* `src/verify/crypto-utils.js` — text/JSON canonicalization (`canonicalizeText`,
  `canonicalizeJSON`);
* `src/unnamed/part_002` — `BrowserProcessTracker` (event capture, entropy,
  temporal coherence, threshold gate, metrics);
* `src/create/app.js` / `src/unnamed/part_003` — claim canonicalization and
  signing subset, assistance-profile resolution inside `createProof`;
* `src/verify/verification.js` — `VerificationClient.verifyProof` response
  handling;
* `src/verify/app.js` — `determineVerdict`.

JavaScript numbers are modelled as `ℚ` (timestamps, durations, metric inputs)
and as `ℝ` where the source computes square roots or logarithms
(`Math.sqrt`, `Math.log2`).  Strings are Lean `String`/`List Char`.
-/

/- ### Canonicalizer (src/verify/crypto-utils.js, canonicalizeText)

The source applies, in order:
  1. `text.replace(/\r\n/g, '\n').replace(/\r/g, '\n')`
  2. `normalized.replace(/\n+$/, '')`
  3. `normalized.replace(/[ \t]+$/gm, '')`
  4. `normalized += '\n'`
Step 1 is a single left-to-right scan turning each CRLF pair into one LF and
every remaining CR into LF; the fused recursion below computes the same
result as the two sequential replaces. -/

def normalizeNewlines : List Char → List Char
  | [] => []
  | '\r' :: '\n' :: rest => '\n' :: normalizeNewlines rest
  | '\r' :: rest => '\n' :: normalizeNewlines rest
  | c :: rest => c :: normalizeNewlines rest

/-- Step 2: `replace(/\n+$/, '')` removes the maximal run of newlines at the
very end of the string. -/
def dropTrailingNewlines (l : List Char) : List Char :=
  (l.reverse.dropWhile (fun c => c == '\n')).reverse

/-- Per-line action of step 3: `[ \t]+$` anchored at a line end strips the
maximal run of spaces/tabs at the end of that line. -/
def stripLineTrailingWS (line : List Char) : List Char :=
  (line.reverse.dropWhile (fun c => c == ' ' || c == '\t')).reverse

/-- Split at `'\n'` (the `m`-flag line structure of step 3). -/
def splitNL : List Char → List (List Char)
  | [] => [[]]
  | '\n' :: rest => [] :: splitNL rest
  | c :: rest =>
    match splitNL rest with
    | [] => [[c]]
    | line :: lines => (c :: line) :: lines

/-- Re-join lines with `'\n'` (inverse of `splitNL`). -/
def joinNL : List (List Char) → List Char
  | [] => []
  | [l] => l
  | l :: ls => l ++ '\n' :: joinNL ls

/-- `canonicalizeText` from `src/verify/crypto-utils.js`, on character lists. -/
def canonicalizeText (text : List Char) : List Char :=
  let normalized := normalizeNewlines text
  let noTrail := dropTrailingNewlines normalized
  let stripped := joinNL ((splitNL noTrail).map stripLineTrailingWS)
  stripped ++ ['\n']

/- ### canonicalizeJSON (src/verify/crypto-utils.js)

The source runs `JSON.parse` inside `try`, returning
`JSON.stringify(obj, Object.keys(obj).sort())` on success and — in the
`catch` branch — the raw input string unchanged.  The external parser and
sorted-key serializer are parameters; the definition captures exactly the
try/catch control flow of the source. -/
def canonicalizeJSON (J : Type) (parse : String → Option J)
    (stringifySorted : J → String) (jsonString : String) : String :=
  match parse jsonString with
  | some obj => stringifySorted obj
  | none => jsonString

/- ### Browser process tracker (src/unnamed/part_002)

Timestamps are `Date.now()` values, modelled as `ℚ`. -/

structure InputEvent where
  type : String
  timestamp : ℚ
deriving DecidableEq

structure TrackerState where
  sessionStart : Option ℚ
  inputEvents : List InputEvent
  editTimestamps : List ℚ
  isTracking : Bool
deriving DecidableEq

/-- The constructor state of `BrowserProcessTracker`. -/
def initialTracker : TrackerState :=
  { sessionStart := none, inputEvents := [], editTimestamps := [], isTracking := false }

/-- `startSession()`: no-op when already tracking, otherwise reset both event
arrays and start the session clock. -/
def startSession (now : ℚ) (s : TrackerState) : TrackerState :=
  if s.isTracking then s
  else { sessionStart := some now, inputEvents := [], editTimestamps := [], isTracking := true }

/-- `recordInput(eventType)`: lazily start the session, push onto both arrays,
then cap with `slice(-5000)` once the length passes 10000 (a JS `slice(-5000)`
on a longer array keeps exactly the last 5000 entries, i.e. drops the
`length - 5000` oldest). -/
def recordInput (now : ℚ) (eventType : String) (s : TrackerState) : TrackerState :=
  let s := if !s.isTracking then startSession now s else s
  let events := s.inputEvents ++ [{ type := eventType, timestamp := now }]
  let stamps := s.editTimestamps ++ [now]
  if events.length > 10000 then
    { s with inputEvents := events.drop (events.length - 5000),
             editTimestamps := stamps.drop (stamps.length - 5000) }
  else
    { s with inputEvents := events, editTimestamps := stamps }

/-- The loop `for (i = 1; ...) { interval = ts[i] - ts[i-1]; if (interval > 0)
intervals.push(interval) }` shared by the entropy, coherence, threshold and
metrics computations: consecutive differences, keeping only the positive ones. -/
def intervalsOf : List ℚ → List ℚ
  | [] => []
  | [_] => []
  | a :: b :: rest =>
    if b - a > 0 then (b - a) :: intervalsOf (b :: rest)
    else intervalsOf (b :: rest)

/-- Minimum of a list; `none` models the JS `Infinity` initial value that is
left untouched when no positive interval is observed. -/
def listMin : List ℚ → Option ℚ
  | [] => none
  | x :: xs =>
    some (match listMin xs with
          | none => x
          | some m => min x m)

/-- The `minInterval` scan of `meetsThresholds` / `generateMetrics`:
minimum positive consecutive interval, `none` = `Infinity`. -/
def minIntervalOf (ts : List ℚ) : Option ℚ :=
  listMin (intervalsOf ts)

/-- `intervals.reduce((s, v) => s + v, 0) / intervals.length`. -/
def meanOf (l : List ℚ) : ℚ :=
  l.sum / l.length

/-- `intervals.reduce((s, v) => s + (v - mean)^2, 0) / intervals.length`. -/
def varianceOf (l : List ℚ) : ℚ :=
  (l.map (fun v => (v - meanOf l) ^ 2)).sum / l.length

/-- `cv = stdDev / mean` with `stdDev = Math.sqrt(variance)`, as computed in
`calculateTemporalCoherence` after its guards. -/
noncomputable def cvOf (ts : List ℚ) : ℝ :=
  Real.sqrt ((varianceOf (intervalsOf ts) : ℚ) : ℝ) / ((meanOf (intervalsOf ts) : ℚ) : ℝ)

/-- `calculateTemporalCoherence()` from `BrowserProcessTracker`. -/
noncomputable def calculateTemporalCoherence (ts : List ℚ) : ℝ :=
  if ts.length < 2 then 0
  else
    let intervals := intervalsOf ts
    if intervals = [] then 0
    else if meanOf intervals = 0 then 0
    else
      let cv := cvOf ts
      if cv < 0.3 then 0.3
      else if cv > 1.0 then 0.2
      else 0.3 + (cv - 0.3) * 0.4 / 0.7

/-- `calculateEntropy()` from `BrowserProcessTracker`: 100 ms buckets of the
positive intervals, Shannon entropy of the bucket distribution, normalized by
6 bits and clamped to 1. -/
noncomputable def calculateEntropy (ts : List ℚ) : ℝ :=
  if ts.length < 2 then 0
  else
    let intervals := intervalsOf ts
    if intervals = [] then 0
    else
      let buckets := intervals.map (fun i => ⌊i / 100⌋)
      let counts := buckets.dedup.map (fun b => buckets.count b)
      let total : ℝ := (intervals.length : ℝ)
      let entropy : ℝ :=
        -((counts.map (fun c =>
            let probability : ℝ := (c : ℝ) / total
            if 0 < probability then probability * Real.logb 2 probability else 0)).sum)
      min (entropy / 6) 1

/-- The slice of `metrics` that `meetsThresholds(metrics)` reads.  `entropy`
and `temporalCoherence` live in a parameter field so that the gate can be
applied both to rational test metrics and to the real-valued outputs of
`calculateEntropy` / `calculateTemporalCoherence`. -/
structure MetricsIn (α : Type) where
  duration : ℚ
  entropy : α
  temporalCoherence : α
  inputEvents : ℕ

/-- `inputRate = duration > 0 ? inputEvents / (duration / 1000) : 0`. -/
def inputRate {α : Type} (m : MetricsIn α) : ℚ :=
  if m.duration > 0 then (m.inputEvents : ℚ) / (m.duration / 1000) else 0

/-- The `minInterval >= 50` comparison of `meetsThresholds`: `none` models the
untouched `Infinity` initial value, and `Infinity >= 50` is true in JS. -/
def minIntervalCheck (o : Option ℚ) : Prop :=
  match o with
  | none => True
  | some mi => mi ≥ 50

/-- `meetsThresholds(metrics)` from `BrowserProcessTracker`: the conjunction of
the five whitepaper gates, with `minInterval` scanned from the instance's
`editTimestamps`. -/
def meetsThresholds {α : Type} [LinearOrderedField α]
    (ts : List ℚ) (m : MetricsIn α) : Prop :=
  m.duration ≥ 30 * 1000 ∧
  m.entropy ≥ 3 / 10 ∧
  m.temporalCoherence ≥ 2 / 10 ∧
  inputRate m ≤ 20 ∧
  minIntervalCheck (minIntervalOf ts)

/-- `generateMetrics()` restricted to the fields the threshold gate reads:
`null` unless tracking with a session start, otherwise duration from the
session clock, the two statistics, and the event count. -/
noncomputable def generateMetrics (now : ℚ) (s : TrackerState) : Option (MetricsIn ℝ) :=
  match s.sessionStart, s.isTracking with
  | some start, true =>
    some { duration := now - start,
           entropy := calculateEntropy s.editTimestamps,
           temporalCoherence := calculateTemporalCoherence s.editTimestamps,
           inputEvents := s.inputEvents.length }
  | _, _ => none

/- ### Claim assembly and signing subset (src/create/app.js, createProof)

`createProof` builds `claim = {hash, did, timestamp}` plus, when the process
digest is truthy, `processDigest` and (when also truthy) `compoundHash`,
then signs `JSON.stringify(claim, Object.keys(claim).sort())`.  With an array
replacer, `JSON.stringify` emits the keys in the replacer's (sorted) order:
compoundHash, did, hash, processDigest, timestamp. -/

/-- JS string truthiness for the optional fields (`null`/`''` are falsy). -/
def strTruthy : Option String → Bool
  | none => false
  | some s => !s.isEmpty

/-- Escaping applied by `JSON.stringify` to the characters that can occur in
the claim's string values (quote and backslash). -/
def jsonEscape (s : String) : String :=
  ⟨s.data.flatMap (fun c => if c == '"' || c == '\\' then ['\\', c] else [c])⟩

/-- One `"name":"value"` member of the serialized claim. -/
def jsonStrField (name val : String) : String :=
  "\"" ++ name ++ "\":\"" ++ jsonEscape val ++ "\""

/-- `JSON.stringify(claim, Object.keys(claim).sort())`: the canonical claim
string whose bytes are passed to `keyManager.sign` (PoHWKeyManager signs
exactly these bytes with Ed25519). -/
def canonicalClaim (hash did timestamp : String)
    (processDigest compoundHash : Option String) : String :=
  let includePD := strTruthy processDigest
  let includeCH := includePD && strTruthy compoundHash
  "\x7b" ++
    (if includeCH then jsonStrField "compoundHash" (compoundHash.getD "") ++ "," else "") ++
    jsonStrField "did" did ++ "," ++
    jsonStrField "hash" hash ++ "," ++
    (if includePD then jsonStrField "processDigest" (processDigest.getD "") ++ "," else "") ++
    jsonStrField "timestamp" timestamp ++
  "\x7d"

/-- The process-metrics subset carried in the attestation and read by the
assistance-profile logic. -/
structure ProcMetricsLite where
  duration : ℚ
  entropy : ℚ
  temporalCoherence : ℚ
  inputEvents : ℕ
  meetsThresholdsFlag : Bool
deriving DecidableEq

/-- The attestation request assembled by `createProof`: the claim fields plus
the unsigned metadata (environment, declared profile, metrics, citations). -/
structure AttestationInput where
  hash : String
  did : String
  timestamp : String
  processDigest : Option String := none
  compoundHash : Option String := none
  authoredOnDevice : String := ""
  environmentAttestation : List String := []
  assistanceProfile : String := "human-only"
  processMetrics : Option ProcMetricsLite := none
  derivedFrom : List String := []
deriving DecidableEq

/-- The exact byte string `createProof` signs for an attestation: the
canonicalized claim subset, independent of every other attestation field. -/
def signedClaimString (a : AttestationInput) : String :=
  canonicalClaim a.hash a.did a.timestamp a.processDigest a.compoundHash

/-- The assistance-profile resolution of `createProof`
(`src/create/app.js` lines 1208-1240, identical in `src/unnamed/part_003`):
declared AI profiles win; otherwise metrics decide; otherwise the declared
value (JS `userSelectedProfile || 'human-only'`, so `''`/`null` fall back). -/
def resolveAssistanceProfile (userSelectedProfile : Option String)
    (processMetrics : Option ProcMetricsLite) : String :=
  if userSelectedProfile = some "AI-assisted" ∨ userSelectedProfile = some "AI-generated" then
    userSelectedProfile.getD "human-only"
  else
    match processMetrics with
    | some m =>
      if m.meetsThresholdsFlag then "human-only"
      else if m.entropy < 0.1 ∧ m.duration < 5000 ∧ m.inputEvents < 5 then "AI-generated"
      else "AI-assisted"
    | none =>
      match userSelectedProfile with
      | some s => if s = "" then "human-only" else s
      | none => "human-only"

/- ### Verification client (src/verify/verification.js, VerificationClient.verifyProof) -/

/-- The registry's verification response, as consumed by the client
(`result.valid`, `result.signer`, `result.did`, `result.merkle_root`,
`result.merkle_proof`, ...). -/
structure VerifResult where
  valid : Bool
  signer : Option String := none
  did : Option String := none
  timestamp : Option String := none
  error : Option String := none
  merkle_root : Option String := none
  merkle_proof : List String := []
  batch_id : Option String := none
deriving DecidableEq

/-- The outcome of the `fetch` inside `verifyProof`. -/
inductive FetchOutcome where
  | ok (data : VerifResult)
  | notFound
  | httpError (status : ℕ) (body : String)
  | networkError (message : String)

/-- `verifyProof` after the fetch: a 2xx response body is returned verbatim
(`return data;`), a 404 and errors map to `valid:false` with an error string.
No Merkle recomputation happens anywhere on this path (nor in
`displayResults`, which only renders `result.merkle_proof`). -/
def verifyProof : FetchOutcome → VerifResult
  | .ok data => data
  | .notFound => { valid := false, error := some "Proof not found in registry" }
  | .httpError status body =>
    { valid := false, error := some ("HTTP " ++ toString status ++ ": " ++ body) }
  | .networkError message => { valid := false, error := some message }

/- ### Verdict classifier (src/verify/app.js, determineVerdict) -/

inductive VerdictType where
  | humanAuthored
  | humanApproved
  | aiAssisted
  | indeterminate
deriving DecidableEq

/-- The `pav:environmentAttestation` value can arrive as a string or as an
array of strings. -/
inductive EnvAtt where
  | str (s : String)
  | arr (l : List String)
deriving DecidableEq

/-- The presentation claim document (`pavClaim`) fields read by
`determineVerdict`. -/
structure PavClaim where
  processDigest : Option String := none
  entropyProof : Option String := none
  temporalCoherence : Option String := none
  environmentAttestation : Option EnvAtt := none
deriving DecidableEq

/-- Boolean `needle` infix test on character lists (JS `String.includes`). -/
def isInfixOfCL (needle : List Char) : List Char → Bool
  | [] => needle.isEmpty
  | c :: rest => needle.isPrefixOf (c :: rest) || isInfixOfCL needle rest

/-- `e.toLowerCase()`. -/
def lowerStr (s : String) : String :=
  ⟨s.data.map Char.toLower⟩

/-- `hay.toLowerCase().includes(needle)` for an already-lowercase needle. -/
def includesLower (hay needle : String) : Bool :=
  isInfixOfCL needle.data (lowerStr hay).data

/-- `envAttestation && (Array.isArray(...) && ....some(e => e.toLowerCase()
.includes(needle)) || typeof ... === 'string' && ....includes(needle))`:
an absent attestation is falsy; an array is searched element-wise. -/
def envMentions (needle : String) : Option EnvAtt → Bool
  | none => false
  | some (.str s) => includesLower s needle
  | some (.arr l) => l.any (fun e => includesLower e needle)

/-- `const hasProcessDigest = pavClaim && pavClaim['pav:processDigest']`. -/
def hasProcessDigestB (pav : Option PavClaim) : Bool :=
  match pav with
  | none => false
  | some p => strTruthy p.processDigest

/-- `const hasEntropyProof = pavClaim && pavClaim['pav:entropyProof']`. -/
def hasEntropyProofB (pav : Option PavClaim) : Bool :=
  match pav with
  | none => false
  | some p => strTruthy p.entropyProof

/-- `const isHumanOnly = envAttestation && (...includes('human-only')...)`. -/
def isHumanOnlyB (pav : Option PavClaim) : Bool :=
  match pav with
  | none => false
  | some p => envMentions "human-only" p.environmentAttestation

/-- `const isAIAssisted = envAttestation && (...includes('ai-assisted')...)`. -/
def isAIAssistedB (pav : Option PavClaim) : Bool :=
  match pav with
  | none => false
  | some p => envMentions "ai-assisted" p.environmentAttestation

/-- `result.signer || result.did` (the signer's DID may arrive under either
key; `''` is falsy). -/
def signerPresentB (r : VerifResult) : Bool :=
  strTruthy r.signer || strTruthy r.did

/-- `determineVerdict(result, pavClaim)` from `src/verify/app.js`: verdict
type plus explanation string. -/
def determineVerdict (r : VerifResult) (pav : Option PavClaim) : VerdictType × String :=
  if !r.valid then
    (.indeterminate, "Proof not found or invalid")
  else
    let hasProcessDigest := hasProcessDigestB pav
    let hasEntropyProof := hasEntropyProofB pav
    let isHumanOnly := isHumanOnlyB pav
    let isAIAssisted := isAIAssistedB pav
    if hasProcessDigest && hasEntropyProof && isHumanOnly then
      (.humanAuthored, "Verified human work with process evidence and human-only attestation")
    else if signerPresentB r then
      if isAIAssisted then
        (.aiAssisted, "Human-approved work with AI assistance disclosed")
      else if hasProcessDigest || hasEntropyProof then
        (.humanApproved, "Verified human signature with process evidence")
      else
        (.humanApproved, "Verified human signature (limited process evidence)")
    else
      (.indeterminate, "Proof is valid but lacks sufficient evidence to determine authorship type")

/-- Transcription of the spec's verdict priority list (section 4.5), used to
compare the code's classifier against the specified one: evaluate in order,
return on first match. -/
def classifySpec (valid hasPD hasEP humanOnly aiAssist signer : Bool) : VerdictType :=
  if !valid then .indeterminate
  else if hasPD && hasEP && humanOnly then .humanAuthored
  else if signer && aiAssist then .aiAssisted
  else if signer && (hasPD || hasEP) then .humanApproved
  else if signer then .humanApproved
  else .indeterminate

/- ### Auxiliary definitions used by the theorems -/

/-- The guard of the first resolution rule: the user explicitly declared an
AI profile. -/
def declaredAI (u : Option String) : Prop :=
  u = some "AI-assisted" ∨ u = some "AI-generated"

instance (u : Option String) : Decidable (declaredAI u) := by
  unfold declaredAI
  exact inferInstance

/-- A baseline attestation submission with process data and environment
metadata. -/
def attHuman : AttestationInput :=
  { hash := "0xabc123", did := "did:pohw:alice",
    timestamp := "2025-01-01T00:00:00.000Z",
    processDigest := some "0xproc01", compoundHash := some "0xcomp02",
    authoredOnDevice := "MacIntel (1440x900)",
    environmentAttestation := ["browser: Chrome on macOS (en-US)", "timezone: UTC", "human-only"],
    assistanceProfile := "human-only" }

/-- The same claim fields as `attHuman` with every unsigned field mutated:
different environment attestation, device string, declared profile, process
metrics and derivation citations. -/
def attMutatedUnsigned : AttestationInput :=
  { hash := "0xabc123", did := "did:pohw:alice",
    timestamp := "2025-01-01T00:00:00.000Z",
    processDigest := some "0xproc01", compoundHash := some "0xcomp02",
    authoredOnDevice := "Linux x86_64 (1920x1080)",
    environmentAttestation := ["browser: Firefox on Linux (de-DE)", "timezone: Europe/Berlin", "web-interface"],
    assistanceProfile := "AI-assisted",
    processMetrics := some { duration := 40000, entropy := 1/2, temporalCoherence := 1/2,
                             inputEvents := 100, meetsThresholdsFlag := true },
    derivedFrom := ["quote: some cited source"] }

/-- `attHuman` with one signed field (the content hash) mutated. -/
def attMutatedHash : AttestationInput :=
  { hash := "0xdef456", did := "did:pohw:alice",
    timestamp := "2025-01-01T00:00:00.000Z",
    processDigest := some "0xproc01", compoundHash := some "0xcomp02",
    authoredOnDevice := "MacIntel (1440x900)",
    environmentAttestation := ["browser: Chrome on macOS (en-US)", "timezone: UTC", "human-only"],
    assistanceProfile := "human-only" }

/-- The list onto which `recordInput` pushes: the current buffer if tracking,
the freshly reset buffer otherwise, plus the new event. -/
def pushedEvents (now : ℚ) (ty : String) (s : TrackerState) : List InputEvent :=
  (if s.isTracking then s.inputEvents else []) ++ [{ type := ty, timestamp := now }]

/-- `n` successive `recordInput` calls (timestamps are irrelevant to the
buffer-size behavior). -/
def recordN : ℕ → TrackerState → TrackerState
  | 0, s => s
  | n + 1, s => recordN n (recordInput (n : ℚ) "input" s)


/- ### Helper lemmas -/

/-- `listMin` bounds: the minimum is at least `c` (vacuously for the empty
list, i.e. the untouched `Infinity`) exactly when every element is. -/
theorem listMin_forall_le (c : ℚ) :
    ∀ l : List ℚ,
      (match listMin l with
       | none => True
       | some m => c ≤ m) ↔ ∀ x ∈ l, c ≤ x := by
  intro l
  induction l with
  | nil => simp [listMin]
  | cons x xs ih =>
    cases h : listMin xs with
    | none =>
      have hxs : xs = [] := by
        cases xs with
        | nil => rfl
        | cons y ys => simp [listMin] at h
      subst hxs
      simp [listMin]
    | some m =>
      rw [h] at ih
      simp only [listMin, h]
      simp only [le_min_iff]
      constructor
      · rintro ⟨hx, hm⟩
        intro y hy
        rcases List.mem_cons.mp hy with rfl | hy
        · exact hx
        · exact (ih.mp hm) y hy
      · intro hall
        exact ⟨hall x (List.mem_cons_self x xs),
               ih.mpr (fun y hy => hall y (List.mem_cons_of_mem x hy))⟩

theorem minIntervalCheck_iff (ts : List ℚ) :
    minIntervalCheck (minIntervalOf ts) ↔ ∀ i ∈ intervalsOf ts, 50 ≤ i := by
  unfold minIntervalCheck minIntervalOf
  exact listMin_forall_le 50 (intervalsOf ts)

/-- Every stored interval is positive (the source pushes only `interval > 0`). -/
theorem intervalsOf_pos : ∀ ts : List ℚ, ∀ x ∈ intervalsOf ts, 0 < x := by
  intro ts
  induction ts with
  | nil => simp [intervalsOf]
  | cons a t ih =>
    cases t with
    | nil => simp [intervalsOf]
    | cons b r =>
      simp only [intervalsOf]
      split
      · intro x hx
        rcases List.mem_cons.mp hx with rfl | hx
        · linarith [show b - a > 0 from by assumption]
        · exact ih x hx
      · exact ih

/-- Fewer than two timestamps produce no intervals. -/
theorem intervalsOf_of_short (ts : List ℚ) (h : ts.length < 2) : intervalsOf ts = [] := by
  match ts with
  | [] => rfl
  | [_] => rfl
  | a :: b :: r => simp at h; omega

/-- A nonempty positive list has positive mean. -/
theorem meanOf_pos (l : List ℚ) (hne : l ≠ []) (hp : ∀ x ∈ l, 0 < x) : 0 < meanOf l := by
  unfold meanOf
  have hsum : 0 < l.sum := List.sum_pos l hp hne
  have hlen : 0 < (l.length : ℚ) := by
    have := List.length_pos.mpr hne
    exact_mod_cast this
  exact div_pos hsum hlen

/- ### Claim C1 -/

/-- C1: the claim says the verification engine recomputes the Merkle root from
`merkleProof` and the leaf digest and reports `valid=false, MerkleMismatch` on
disagreement.  The code does no such recomputation: `verifyProof` returns any
2xx registry response verbatim, so a response carrying a flipped sibling
digest in `merkle_proof` (here a concrete tampered proof path under a root it
cannot hash to) is still reported exactly as the registry asserted —
`valid = true` and no error.  `displayResults` then only renders the path. -/
theorem verify_proof_trusts_registry :
    (∀ data : VerifResult, verifyProof (.ok data) = data) ∧
    verifyProof (.ok { valid := true, signer := some "did:pohw:alice",
                       merkle_root := some "0xdeadbeef",
                       merkle_proof := ["0xflipped00", "0xsibling11"] }) =
      { valid := true, signer := some "did:pohw:alice",
        merkle_root := some "0xdeadbeef",
        merkle_proof := ["0xflipped00", "0xsibling11"] } ∧
    (verifyProof (.ok { valid := true, signer := some "did:pohw:alice",
                        merkle_root := some "0xdeadbeef",
                        merkle_proof := ["0xflipped00", "0xsibling11"] })).valid = true ∧
    (verifyProof (.ok { valid := true, signer := some "did:pohw:alice",
                        merkle_root := some "0xdeadbeef",
                        merkle_proof := ["0xflipped00", "0xsibling11"] })).error = none :=
  ⟨fun _ => rfl, rfl, rfl, rfl⟩

/- ### Claim C2 -/

/-- C2: the claim (and the spec) demand an `InvalidInput` failure when the
input of `canonicalizeJSON` does not parse.  The code's `catch` branch instead
returns the raw input unchanged: whenever the parser rejects the input, the
function silently passes the bytes through. -/
theorem canonicalize_json_silent_fallback (J : Type) (parse : String → Option J)
    (stringifySorted : J → String) (s : String) (h : parse s = none) :
    canonicalizeJSON J parse stringifySorted s = s := by
  unfold canonicalizeJSON
  rw [h]

/-- Witness for C2 at the concrete unparseable input `"not json"`. -/
theorem canonicalize_json_silent_fallback_witness :
    canonicalizeJSON Unit (fun _ => none) (fun _ => "") "not json" = "not json" :=
  canonicalize_json_silent_fallback Unit (fun _ => none) (fun _ => "") "not json" rfl

/- ### Claim C6 -/

/-- C6: the claim says `canonicalizeText` is idempotent.  It is not: for the
input `"a\n\t"` (a text whose last line is whitespace-only) the trailing-tab
is stripped only after the trailing-newline pass has already run, leaving
`"a\n\n"` — which even violates the code's own "ensure single trailing
newline" comment — and a second canonicalization collapses it to `"a\n"`. -/
theorem canonicalize_text_not_idempotent :
    canonicalizeText (canonicalizeText "a\n\t".data) ≠ canonicalizeText "a\n\t".data ∧
    canonicalizeText "a\n\t".data = "a\n\n".data ∧
    canonicalizeText (canonicalizeText "a\n\t".data) = "a\n".data := by
  refine ⟨?_, by decide, by decide⟩
  decide

/- ### Claim C3 -/

/-- C3: the verdict classifier is the spec's strict priority list.
`determineVerdict` computes, for every registry result and presentation
claim, exactly `classifySpec` applied to the six evidence predicates the code
extracts (validity, truthy process digest, truthy entropy proof, environment
mentioning human-only, environment mentioning ai-assisted, present signer —
the signer's DID may arrive under `result.signer` or `result.did`); and an
invalid result is classified `indeterminate` whatever the claim metadata is. -/
theorem determine_verdict_priority_list :
    (∀ (r : VerifResult) (pav : Option PavClaim),
       (determineVerdict r pav).1 =
         classifySpec r.valid (hasProcessDigestB pav) (hasEntropyProofB pav)
           (isHumanOnlyB pav) (isAIAssistedB pav) (signerPresentB r)) ∧
    (∀ (signer did timestamp error merkle_root : Option String)
       (merkle_proof : List String) (batch_id : Option String) (pav : Option PavClaim),
       (determineVerdict
          { valid := false, signer := signer, did := did, timestamp := timestamp,
            error := error, merkle_root := merkle_root, merkle_proof := merkle_proof,
            batch_id := batch_id } pav).1 = .indeterminate) := by
  constructor
  · intro r pav
    cases hv : r.valid <;>
      cases hPD : hasProcessDigestB pav <;>
      cases hEP : hasEntropyProofB pav <;>
      cases hHO : isHumanOnlyB pav <;>
      cases hAI : isAIAssistedB pav <;>
      cases hS : signerPresentB r <;>
      simp [determineVerdict, classifySpec, hv, hPD, hEP, hHO, hAI, hS]
  · intro signer did timestamp error merkle_root merkle_proof batch_id pav
    simp [determineVerdict]

/- ### Claim C4 -/

/-- C4: assistance-profile resolution is first-match-wins.
(1)/(2) a declared AI profile is used even when metrics meet every human
threshold; (3) metrics present and passing yield `human-only`; (4) metrics
present and failing yield `AI-generated` exactly under the low-signal triple
(entropy < 0.1, duration < 5000 ms, events < 5) and `AI-assisted` otherwise;
(5) with no metrics, a declared non-empty value is used, else `human-only`. -/
theorem assistance_profile_resolution :
    (∀ pm : Option ProcMetricsLite,
       resolveAssistanceProfile (some "AI-assisted") pm = "AI-assisted") ∧
    (∀ pm : Option ProcMetricsLite,
       resolveAssistanceProfile (some "AI-generated") pm = "AI-generated") ∧
    (∀ (u : Option String) (m : ProcMetricsLite), ¬ declaredAI u →
       m.meetsThresholdsFlag = true →
       resolveAssistanceProfile u (some m) = "human-only") ∧
    (∀ (u : Option String) (m : ProcMetricsLite), ¬ declaredAI u →
       m.meetsThresholdsFlag = false →
       m.entropy < 0.1 → m.duration < 5000 → m.inputEvents < 5 →
       resolveAssistanceProfile u (some m) = "AI-generated") ∧
    (∀ (u : Option String) (m : ProcMetricsLite), ¬ declaredAI u →
       m.meetsThresholdsFlag = false →
       ¬ (m.entropy < 0.1 ∧ m.duration < 5000 ∧ m.inputEvents < 5) →
       resolveAssistanceProfile u (some m) = "AI-assisted") ∧
    (∀ s : String, ¬ declaredAI (some s) → s ≠ "" →
       resolveAssistanceProfile (some s) none = s) ∧
    resolveAssistanceProfile none none = "human-only" ∧
    (∀ m : ProcMetricsLite, m.meetsThresholdsFlag = true →
       resolveAssistanceProfile (some "AI-assisted") (some m) = "AI-assisted") := by
  refine ⟨?_, ?_, ?_, ?_, ?_, ?_, ?_, ?_⟩
  · intro pm; simp [resolveAssistanceProfile]
  · intro pm; simp [resolveAssistanceProfile]
  · intro u m hu hm
    unfold resolveAssistanceProfile
    rw [if_neg (by exact hu)]
    simp [hm]
  · intro u m hu hm h1 h2 h3
    unfold resolveAssistanceProfile
    rw [if_neg (by exact hu)]
    simp [hm, h1, h2, h3]
  · intro u m hu hm hlow
    unfold resolveAssistanceProfile
    rw [if_neg (by exact hu)]
    simp only []
    simp [hm, hlow]
  · intro s hu hs
    unfold resolveAssistanceProfile
    rw [if_neg (by exact hu)]
    simp [hs]
  · simp [resolveAssistanceProfile]
  · intro m hm
    simp [resolveAssistanceProfile]

/-- Witness for C4: a declared `AI-assisted` profile wins over metrics that
meet every human threshold. -/
theorem assistance_profile_resolution_witness :
    resolveAssistanceProfile (some "AI-assisted")
      (some { duration := 60000, entropy := 0.8, temporalCoherence := 0.5,
              inputEvents := 500, meetsThresholdsFlag := true }) = "AI-assisted" :=
  assistance_profile_resolution.2.2.2.2.2.2.2
    { duration := 60000, entropy := 0.8, temporalCoherence := 0.5,
      inputEvents := 500, meetsThresholdsFlag := true } rfl

/- ### Claim C7 -/

/-- C7: the signature covers only the canonicalized claim subset (hash, DID,
timestamp, and — when present — processDigest and compoundHash), not the full
attestation.  Any two submissions agreeing on those five fields produce
identical signed canonical bytes, so mutating an unsigned field (environment,
device, declared profile, metrics, citations — as in `attMutatedUnsigned`)
leaves the signed bytes unchanged, while mutating the signed hash field (as
in `attMutatedHash`) changes them. -/
theorem signature_covers_claim_subset :
    (∀ a1 a2 : AttestationInput,
       a1.hash = a2.hash → a1.did = a2.did → a1.timestamp = a2.timestamp →
       a1.processDigest = a2.processDigest → a1.compoundHash = a2.compoundHash →
       signedClaimString a1 = signedClaimString a2) ∧
    signedClaimString attHuman = signedClaimString attMutatedUnsigned ∧
    signedClaimString attHuman ≠ signedClaimString attMutatedHash := by
  refine ⟨?_, by decide, by decide⟩
  intro a1 a2 h1 h2 h3 h4 h5
  unfold signedClaimString
  rw [h1, h2, h3, h4, h5]

/-- Witness for C7: the coverage theorem applied to the two concrete
submissions that differ only in unsigned metadata. -/
theorem signature_covers_claim_subset_witness :
    signedClaimString attHuman = signedClaimString attMutatedUnsigned :=
  signature_covers_claim_subset.1 attHuman attMutatedUnsigned rfl rfl rfl rfl rfl

/- ### Claim C5 -/

/-- C5: `meetsThresholds` is a hard conjunctive gate: it holds exactly when
duration ≥ 30000 ms, entropy ≥ 0.3, temporal coherence ≥ 0.2, the event rate
is at most 20 events per second (`inputEvents ≤ 20 · duration/1000`), and
every observed positive inter-event interval is ≥ 50 ms (equivalently the
minimum observed interval is).  In particular a session with 2 events 10 ms
apart fails the gate even with qualifying duration and entropy, and any
duration below 30000 ms makes the gate false whatever the other metrics are. -/
theorem meets_thresholds_gate :
    (∀ (α : Type) [LinearOrderedField α] (ts : List ℚ) (m : MetricsIn α),
       meetsThresholds ts m ↔
         (30000 ≤ m.duration ∧ 3 / 10 ≤ m.entropy ∧ 2 / 10 ≤ m.temporalCoherence ∧
          (m.inputEvents : ℚ) ≤ 20 * (m.duration / 1000) ∧
          ∀ i ∈ intervalsOf ts, 50 ≤ i)) ∧
    (∀ m : MetricsIn ℚ, 30000 ≤ m.duration → 3 / 10 ≤ m.entropy →
       ¬ meetsThresholds [0, 10] m) ∧
    (∀ (α : Type) [LinearOrderedField α] (ts : List ℚ) (m : MetricsIn α),
       m.duration < 30000 → ¬ meetsThresholds ts m) := by
  have hmain : ∀ (α : Type) [LinearOrderedField α] (ts : List ℚ) (m : MetricsIn α),
      meetsThresholds ts m ↔
        (30000 ≤ m.duration ∧ 3 / 10 ≤ m.entropy ∧ 2 / 10 ≤ m.temporalCoherence ∧
         (m.inputEvents : ℚ) ≤ 20 * (m.duration / 1000) ∧
         ∀ i ∈ intervalsOf ts, 50 ≤ i) := by
    intro α _ ts m
    unfold meetsThresholds
    rw [minIntervalCheck_iff]
    rw [show (30 * 1000 : ℚ) = 30000 from by norm_num]
    constructor
    · rintro ⟨hd, he, hc, hr, hmin⟩
      have hd0 : (0 : ℚ) < m.duration := by linarith
      have h1000 : (0 : ℚ) < m.duration / 1000 := by positivity
      rw [inputRate, if_pos hd0] at hr
      exact ⟨hd, he, hc, (div_le_iff₀ h1000).mp hr, hmin⟩
    · rintro ⟨hd, he, hc, hr, hmin⟩
      have hd0 : (0 : ℚ) < m.duration := by linarith
      have h1000 : (0 : ℚ) < m.duration / 1000 := by positivity
      refine ⟨hd, he, hc, ?_, hmin⟩
      rw [inputRate, if_pos hd0]
      exact (div_le_iff₀ h1000).mpr hr
  refine ⟨hmain, ?_, ?_⟩
  · intro m _ _ h
    have hall := ((hmain ℚ [0, 10] m).mp h).2.2.2.2
    have h10 : (10 : ℚ) ∈ intervalsOf [0, 10] := by norm_num [intervalsOf]
    have := hall 10 h10
    norm_num at this
  · intro α _ ts m hlt h
    have := ((hmain α ts m).mp h).1
    linarith

/-- Witness for C5: two events 10 ms apart fail the gate despite qualifying
duration and entropy. -/
theorem meets_thresholds_gate_witness :
    ¬ meetsThresholds [0, 10]
      ({ duration := 40000, entropy := 1/2, temporalCoherence := 1/2,
         inputEvents := 10 } : MetricsIn ℚ) :=
  meets_thresholds_gate.2.1
    { duration := 40000, entropy := 1/2, temporalCoherence := 1/2, inputEvents := 10 }
    (by norm_num) (by norm_num)

/- ### Claim C8 -/

theorem recordInput_isTracking (now : ℚ) (ty : String) (s : TrackerState) :
    (recordInput now ty s).isTracking = true := by
  unfold recordInput startSession
  cases h : s.isTracking <;> (simp [h]; try (split <;> simp))

theorem recordInput_events_eq (now : ℚ) (ty : String) (s : TrackerState) :
    (recordInput now ty s).inputEvents =
      if (pushedEvents now ty s).length > 10000
      then (pushedEvents now ty s).drop ((pushedEvents now ty s).length - 5000)
      else pushedEvents now ty s := by
  unfold recordInput startSession pushedEvents
  cases h : s.isTracking <;> (simp [h]; try (split <;> simp))

theorem recordInput_length_succ (now : ℚ) (ty : String) (s : TrackerState)
    (ht : s.isTracking = true) (hlen : s.inputEvents.length < 10000) :
    (recordInput now ty s).inputEvents.length = s.inputEvents.length + 1 := by
  rw [recordInput_events_eq]
  have hp : (pushedEvents now ty s).length = s.inputEvents.length + 1 := by
    simp [pushedEvents, ht]
  rw [if_neg (by omega), hp]

theorem recordN_length : ∀ (n : ℕ) (s : TrackerState), s.isTracking = true →
    s.inputEvents.length + n ≤ 10000 →
    (recordN n s).inputEvents.length = s.inputEvents.length + n := by
  intro n
  induction n with
  | zero => intro s _ _; simp [recordN]
  | succ k ih =>
    intro s ht hle
    rw [recordN]
    have h1 : (recordInput (k : ℚ) "input" s).inputEvents.length =
        s.inputEvents.length + 1 :=
      recordInput_length_succ _ _ _ ht (by omega)
    have h2 := ih (recordInput (k : ℚ) "input" s) (recordInput_isTracking _ _ _)
      (by rw [h1]; omega)
    rw [h2, h1]
    omega

/-- Counterexample to C8 as stated: the buffer is *not* bounded to the most
recent 5,000 events.  After 6,000 `recordInput` calls on a fresh tracker the
stored event list holds all 6,000 events (the cap only engages past 10,000). -/
theorem event_buffer_exceeds_5000 :
    (recordN 6000 initialTracker).inputEvents.length = 6000 ∧
    ¬ ((recordN 6000 initialTracker).inputEvents.length ≤ 5000) := by
  have h6000 : (6000 : ℕ) = 5999 + 1 := by norm_num
  have hstep : recordN 6000 initialTracker =
      recordN 5999 (recordInput ((5999 : ℕ) : ℚ) "input" initialTracker) := by
    rw [h6000, recordN]
  have ht : (recordInput ((5999 : ℕ) : ℚ) "input" initialTracker).isTracking = true :=
    recordInput_isTracking _ _ _
  have hl : (recordInput ((5999 : ℕ) : ℚ) "input" initialTracker).inputEvents.length = 1 := by
    rw [recordInput_events_eq]
    simp [pushedEvents, initialTracker]
  have hlen := recordN_length 5999 _ ht (by rw [hl]; omega)
  rw [hl] at hlen
  rw [hstep, hlen]
  omega

/-- C8 (amended): the event buffer is bounded to the most recent 10,000
events.  Each `recordInput` appends the new event; once the pushed list
exceeds 10,000 entries it is truncated to exactly its most recent 5,000
entries (a suffix — the oldest are discarded first), and a buffer within the
10,000 bound stays within it. -/
theorem record_input_ring_cap :
    ∀ (now : ℚ) (ty : String) (s : TrackerState),
      ((recordInput now ty s).inputEvents =
         if (pushedEvents now ty s).length > 10000
         then (pushedEvents now ty s).drop ((pushedEvents now ty s).length - 5000)
         else pushedEvents now ty s) ∧
      (recordInput now ty s).inputEvents.IsSuffix (pushedEvents now ty s) ∧
      ((pushedEvents now ty s).length > 10000 →
        (recordInput now ty s).inputEvents.length = 5000) ∧
      (s.inputEvents.length ≤ 10000 →
        (recordInput now ty s).inputEvents.length ≤ 10000) := by
  intro now ty s
  have heq := recordInput_events_eq now ty s
  have hdroplen : ∀ h : (pushedEvents now ty s).length > 10000,
      ((pushedEvents now ty s).drop ((pushedEvents now ty s).length - 5000)).length = 5000 := by
    intro h
    rw [List.length_drop]
    omega
  refine ⟨heq, ?_, ?_, ?_⟩
  · rw [heq]
    split
    · exact List.drop_suffix _ _
    · exact List.suffix_refl _
  · intro h
    rw [heq, if_pos h]
    exact hdroplen h
  · intro hbound
    rw [heq]
    split
    · rw [List.length_drop]; omega
    · have : (pushedEvents now ty s).length ≤ s.inputEvents.length + 1 := by
        unfold pushedEvents
        split <;> simp
      omega

/-- Witness for C8: a sub-cap buffer stays within the 10,000 bound. -/
theorem record_input_ring_cap_witness :
    (recordInput 7 "input" initialTracker).inputEvents.length ≤ 10000 :=
  (record_input_ring_cap 7 "input" initialTracker).2.2.2 (by simp [initialTracker])

/- ### Claim C9 -/

theorem calculateEntropy_of_short (ts : List ℚ) (h : ts.length < 2) :
    calculateEntropy ts = 0 := by
  unfold calculateEntropy
  rw [if_pos h]

theorem calculateTemporalCoherence_of_short (ts : List ℚ) (h : ts.length < 2) :
    calculateTemporalCoherence ts = 0 := by
  unfold calculateTemporalCoherence
  rw [if_pos h]

/-- Counterexample to C9 as stated: the gate does not fail *solely* because of
entropy on a degenerate session.  At zero recorded events the temporal
coherence statistic is also 0, which fails the gate's `>= 0.2` coherence
conjunct on its own, while entropy is likewise 0. -/
theorem coherence_also_fails_on_degenerate_session :
    calculateTemporalCoherence ([] : List ℚ) = 0 ∧
    ¬ ((2 : ℝ) / 10 ≤ calculateTemporalCoherence ([] : List ℚ)) ∧
    ([] : List ℚ).length < 2 ∧
    calculateEntropy ([] : List ℚ) = 0 := by
  have hc := calculateTemporalCoherence_of_short [] (by norm_num)
  have he := calculateEntropy_of_short [] (by norm_num)
  refine ⟨hc, ?_, by norm_num, he⟩
  rw [hc]
  norm_num

/-- C9 (amended): a session with fewer than 2 recorded events can never meet
the human thresholds.  The minimum-interval check is vacuously satisfied (the
internal minimum stays at `Infinity`, modelled as `none`, which passes the
`>= 50 ms` gate), and the gate fails because entropy is 0 (below the 0.3
threshold) and temporal coherence is 0 (below the 0.2 threshold). -/
theorem few_events_fail_thresholds :
    ∀ (now : ℚ) (s : TrackerState) (m : MetricsIn ℝ),
      s.editTimestamps.length < 2 →
      generateMetrics now s = some m →
      m.entropy = 0 ∧ m.temporalCoherence = 0 ∧
      minIntervalOf s.editTimestamps = none ∧
      minIntervalCheck (minIntervalOf s.editTimestamps) ∧
      ¬ meetsThresholds s.editTimestamps m := by
  intro now s m hlen hgen
  have hm : m.entropy = calculateEntropy s.editTimestamps ∧
      m.temporalCoherence = calculateTemporalCoherence s.editTimestamps := by
    unfold generateMetrics at hgen
    cases hs : s.sessionStart with
    | none => rw [hs] at hgen; cases hgen
    | some start =>
      cases htr : s.isTracking with
      | false => rw [hs, htr] at hgen; cases hgen
      | true =>
        rw [hs, htr] at hgen
        cases hgen
        exact ⟨rfl, rfl⟩
  have hent : m.entropy = 0 := by
    rw [hm.1]; exact calculateEntropy_of_short _ hlen
  have hcoh : m.temporalCoherence = 0 := by
    rw [hm.2]; exact calculateTemporalCoherence_of_short _ hlen
  have hmin : minIntervalOf s.editTimestamps = none := by
    unfold minIntervalOf
    rw [intervalsOf_of_short _ hlen]
    rfl
  refine ⟨hent, hcoh, hmin, ?_, ?_⟩
  · rw [hmin]; trivial
  · intro hmeets
    have := hmeets.2.1
    rw [hent] at this
    norm_num at this

/-- Witness for C9 at a concrete one-event-free session open for 40 s. -/
theorem few_events_fail_thresholds_witness :
    ¬ meetsThresholds ([] : List ℚ)
      ({ duration := 40000 - 0, entropy := calculateEntropy [],
         temporalCoherence := calculateTemporalCoherence [],
         inputEvents := 0 } : MetricsIn ℝ) :=
  (few_events_fail_thresholds 40000
    { sessionStart := some 0, inputEvents := [], editTimestamps := [], isTracking := true }
    _ (by norm_num) rfl).2.2.2.2

/- ### Claim C10 -/

/-- With at least one positive interval, all three guards of
`calculateTemporalCoherence` fall through and the result is the pure
cv-branching. -/
theorem calculateTemporalCoherence_of_ne (ts : List ℚ) (h : intervalsOf ts ≠ []) :
    calculateTemporalCoherence ts =
      if cvOf ts < 0.3 then (0.3 : ℝ)
      else if cvOf ts > 1.0 then 0.2
      else 0.3 + (cvOf ts - 0.3) * 0.4 / 0.7 := by
  have h2 : ¬ ts.length < 2 := fun hlt => h (intervalsOf_of_short ts hlt)
  have hmean : 0 < meanOf (intervalsOf ts) :=
    meanOf_pos _ h (intervalsOf_pos ts)
  simp only [calculateTemporalCoherence]
  rw [if_neg h2, if_neg h, if_neg (ne_of_gt hmean)]

/-- Counterexample to C10 as stated: at the boundary `cv = 0.3` (timestamps
0, 13, 20 ms give intervals 13 and 7, mean 10, standard deviation 3) neither
the `cv < 0.3` nor the `cv > 1.0` branch fires, yet the "otherwise" value is
exactly 0.3, which is *not* in the claimed open-below interval (0.3, 0.7]. -/
theorem coherence_at_cv_boundary :
    cvOf [(0 : ℚ), 13, 20] = 3 / 10 ∧
    ¬ (cvOf [(0 : ℚ), 13, 20] < 0.3) ∧
    ¬ ((1 : ℝ) < cvOf [(0 : ℚ), 13, 20]) ∧
    calculateTemporalCoherence [(0 : ℚ), 13, 20] = 3 / 10 ∧
    ¬ ((3 : ℝ) / 10 < calculateTemporalCoherence [(0 : ℚ), 13, 20]) := by
  have hi : intervalsOf [(0 : ℚ), 13, 20] = [13, 7] := by norm_num [intervalsOf]
  have hmean : meanOf [13, 7] = 10 := by norm_num [meanOf]
  have hvar : varianceOf [13, 7] = 9 := by norm_num [varianceOf, meanOf]
  have hcv : cvOf [(0 : ℚ), 13, 20] = 3 / 10 := by
    unfold cvOf
    rw [hi, hmean, hvar]
    rw [show ((9 : ℚ) : ℝ) = 3 ^ 2 by norm_num,
        Real.sqrt_sq (by norm_num : (0 : ℝ) ≤ 3)]
    norm_num
  have hne : intervalsOf [(0 : ℚ), 13, 20] ≠ [] := by rw [hi]; simp
  have hcoh : calculateTemporalCoherence [(0 : ℚ), 13, 20] = 3 / 10 := by
    rw [calculateTemporalCoherence_of_ne _ hne, hcv]
    rw [if_neg (by norm_num), if_neg (by norm_num)]
    norm_num
  refine ⟨hcv, ?_, ?_, hcoh, ?_⟩
  · rw [hcv]; norm_num
  · rw [hcv]; norm_num
  · rw [hcoh]; norm_num

/-- C10 (amended): `calculateTemporalCoherence` always lands in
{0} ∪ [0.2, 0.7]: it returns 0 when there is no positive inter-event
interval, 0.3 when the coefficient of variation is below 0.3, 0.2 when it
exceeds 1.0, and a value in the *closed* interval [0.3, 0.7] otherwise; so
whenever at least one positive interval exists the gate's coherence
threshold (≥ 0.2) is automatically satisfied, and the score never
exceeds 0.7. -/
theorem temporal_coherence_range :
    (∀ ts : List ℚ, intervalsOf ts = [] → calculateTemporalCoherence ts = 0) ∧
    (∀ ts : List ℚ, intervalsOf ts ≠ [] →
       (0.2 : ℝ) ≤ calculateTemporalCoherence ts ∧ calculateTemporalCoherence ts ≤ 0.7) ∧
    (∀ ts : List ℚ, calculateTemporalCoherence ts = 0 ∨
       ((0.2 : ℝ) ≤ calculateTemporalCoherence ts ∧ calculateTemporalCoherence ts ≤ 0.7)) ∧
    (∀ ts : List ℚ, intervalsOf ts ≠ [] → cvOf ts < 0.3 →
       calculateTemporalCoherence ts = 0.3) ∧
    (∀ ts : List ℚ, intervalsOf ts ≠ [] → (1.0 : ℝ) < cvOf ts →
       calculateTemporalCoherence ts = 0.2) ∧
    (∀ ts : List ℚ, intervalsOf ts ≠ [] → (0.3 : ℝ) ≤ cvOf ts → cvOf ts ≤ 1.0 →
       calculateTemporalCoherence ts = 0.3 + (cvOf ts - 0.3) * 0.4 / 0.7 ∧
       (0.3 : ℝ) ≤ calculateTemporalCoherence ts ∧ calculateTemporalCoherence ts ≤ 0.7) := by
  have hnil : ∀ ts : List ℚ, intervalsOf ts = [] → calculateTemporalCoherence ts = 0 := by
    intro ts h
    by_cases hlen : ts.length < 2
    · exact calculateTemporalCoherence_of_short ts hlen
    · simp only [calculateTemporalCoherence]
      rw [if_neg hlen, if_pos h]
  have hrange : ∀ ts : List ℚ, intervalsOf ts ≠ [] →
      (0.2 : ℝ) ≤ calculateTemporalCoherence ts ∧ calculateTemporalCoherence ts ≤ 0.7 := by
    intro ts h
    rw [calculateTemporalCoherence_of_ne ts h]
    split_ifs with h1 h2
    · constructor <;> norm_num
    · constructor <;> norm_num
    · push_neg at h1 h2
      norm_num at h1 h2 ⊢
      constructor <;> linarith
  refine ⟨hnil, hrange, ?_, ?_, ?_, ?_⟩
  · intro ts
    by_cases h : intervalsOf ts = []
    · exact Or.inl (hnil ts h)
    · exact Or.inr (hrange ts h)
  · intro ts h hcv
    rw [calculateTemporalCoherence_of_ne ts h, if_pos hcv]
  · intro ts h hcv
    rw [calculateTemporalCoherence_of_ne ts h,
        if_neg (by linarith), if_pos hcv]
  · intro ts h hlo hhi
    have heq : calculateTemporalCoherence ts = 0.3 + (cvOf ts - 0.3) * 0.4 / 0.7 := by
      rw [calculateTemporalCoherence_of_ne ts h,
          if_neg (by linarith), if_neg (by linarith)]
    norm_num at hlo hhi heq ⊢
    refine ⟨heq, ?_, ?_⟩ <;> rw [heq] <;> linarith

/-- Witness for C10 at a concrete single-interval session: one 100 ms
interval has zero variance, hence cv = 0 < 0.3 and coherence 0.3. -/
theorem temporal_coherence_range_witness :
    calculateTemporalCoherence [(0 : ℚ), 100] = 0.3 :=
  temporal_coherence_range.2.2.2.1 [(0 : ℚ), 100]
    (by norm_num [intervalsOf])
    (by
      unfold cvOf
      rw [show intervalsOf [(0 : ℚ), 100] = [100] from by norm_num [intervalsOf]]
      rw [show varianceOf [100] = 0 from by norm_num [varianceOf, meanOf]]
      simp [Real.sqrt_zero]
      norm_num)
